import Mathlib

/-!
Verification of the MCP sample server (`src/function_app.py`).

The file shallowly embeds the argument-normalization convention, the three
mock datasets and the four tool handlers of the repository, and proves the
frozen claims about them.

Modelling conventions:
* Parsed JSON values are `JValue`; a parsed Python dict is `JValue.jobj`
  with an association list of fields (Python dicts are duplicate-free, so
  field lists representing real parsed inputs have distinct keys; lookup
  takes the first occurrence).
* Python `float` payloads are modelled as exact rationals (`ℚ`); every
  float computation done by the program (`c * 9 / 5 + 32`, `round(_, 1)`)
  is exact at one decimal digit on all values in the datasets.
* Fallible Python operations (`.get` on a non-dict, `.strip()` on a
  non-string value) are modelled in `Except PyErr`, mirroring the
  `AttributeError` they raise; `int(...)` failure
  (`ValueError`/`TypeError`) is modelled by `pyToInt = none`, which the
  handler turns into the documented default.
* Python string methods `strip/lower/upper/title`, the substring test
  `in`, list slicing `xs[:k]` (including negative `k`) and `int()` string
  parsing are modelled for the ASCII data the program works with.
* Handlers return the result object before `json.dumps`; serialization is
  a pure function of that object, so all determinism and value claims are
  settled on the object.
-/

/-- A parsed JSON value (the result of `json.loads`). -/
inductive JValue where
  | jnull : JValue
  | jbool : Bool → JValue
  | jint : Int → JValue
  | jfloat : ℚ → JValue
  | jstr : String → JValue
  | jarr : List JValue → JValue
  | jobj : List (String × JValue) → JValue

/-- Python exceptions the handlers can raise while reading arguments. -/
inductive PyErr where
  | attributeError : PyErr
  deriving DecidableEq

/-- Lookup in an association list, as Python `dict.get(key)` (Python dicts
hold each key once, so taking the first occurrence is faithful). -/
def alistGet {α : Type} : List (String × α) → String → Option α
  | [], _ => none
  | (k, v) :: rest, key => if k = key then some v else alistGet rest key

/-- Python `c.lower()` for one character (ASCII range, as in the data). -/
def pyLowerChar (c : Char) : Char :=
  if 65 ≤ c.toNat ∧ c.toNat ≤ 90 then Char.ofNat (c.toNat + 32) else c

/-- Python `c.upper()` for one character (ASCII range, as in the data). -/
def pyUpperChar (c : Char) : Char :=
  if 97 ≤ c.toNat ∧ c.toNat ≤ 122 then Char.ofNat (c.toNat - 32) else c

/-- Python `s.lower()`. -/
def pyLower (s : String) : String := ⟨s.data.map pyLowerChar⟩

/-- Python `s.upper()`. -/
def pyUpper (s : String) : String := ⟨s.data.map pyUpperChar⟩

/-- Python whitespace recognised by `str.strip()`. -/
def pyIsSpace (c : Char) : Bool :=
  c == ' ' || c == '\t' || c == '\n' || c == '\r' || c.toNat == 11 || c.toNat == 12

/-- Python `s.strip()`: drop whitespace from both ends. -/
def pyStrip (s : String) : String :=
  ⟨((s.data.dropWhile pyIsSpace).reverse.dropWhile pyIsSpace).reverse⟩

/-- An ASCII letter (the word characters `str.title()` cases). -/
def isAsciiAlpha (c : Char) : Bool :=
  (65 ≤ c.toNat && c.toNat ≤ 90) || (97 ≤ c.toNat && c.toNat ≤ 122)

/-- Worker for `pyTitle`: the Boolean records whether the previous
character was a letter (continuing a word). -/
def pyTitleGo : Bool → List Char → List Char
  | _, [] => []
  | prev, c :: rest =>
    (if isAsciiAlpha c then (if prev then pyLowerChar c else pyUpperChar c) else c)
      :: pyTitleGo (isAsciiAlpha c) rest

/-- Python `s.title()`: uppercase each word-initial letter, lowercase the
rest of the word. -/
def pyTitle (s : String) : String := ⟨pyTitleGo false s.data⟩

/-- Python `a or b` on strings: `b` when `a` is empty (falsy), else `a`. -/
def pyOrStr (a b : String) : String := if a = "" then b else a

/-- Boolean list-prefix test (used to model substring search). -/
def isPrefixB : List Char → List Char → Bool
  | [], _ => true
  | _ :: _, [] => false
  | a :: as, b :: bs => a == b && isPrefixB as bs

/-- Boolean contiguous-sublist test (used to model Python `in`). -/
def isInfixB (needle : List Char) (hay : List Char) : Bool :=
  isPrefixB needle hay ||
    match hay with
    | [] => false
    | _ :: t => isInfixB needle t

/-- Python `needle in hay` on strings: contiguous substring test. -/
def pyIn (needle hay : String) : Bool := isInfixB needle.data hay.data

/-- Digits of a literal to a number (used by the `int()` model). -/
def digitsToNat (l : List Char) : Nat :=
  l.foldl (fun acc c => acc * 10 + (c.toNat - 48)) 0

/-- Python `int(s)` on a string: optional surrounding whitespace, optional
sign, then a nonempty run of decimal digits; anything else raises
(`none`). -/
def pyIntOfString (s : String) : Option Int :=
  let t := (pyStrip s).data
  let signed : Int × List Char :=
    match t with
    | '+' :: rest => (1, rest)
    | '-' :: rest => (-1, rest)
    | l => (1, l)
  if signed.2 ≠ [] ∧ signed.2.all (fun c => c.isDigit)
  then some (signed.1 * (digitsToNat signed.2 : Int))
  else none

/-- Truncation toward zero, as Python `int(float)`. -/
def ratTrunc (q : ℚ) : Int := if 0 ≤ q then ⌊q⌋ else -⌊-q⌋

/-- Python `int(x)` on a JSON value: ints pass through, bools become 0/1,
floats truncate, strings parse; `None`, lists and dicts raise
(`TypeError`), strings that do not parse raise (`ValueError`) — both
modelled as `none`. -/
def pyToInt : JValue → Option Int
  | .jint n => some n
  | .jbool b => some (if b then 1 else 0)
  | .jfloat q => some (ratTrunc q)
  | .jstr s => pyIntOfString s
  | _ => none

/-- Python `xs[:k]`: for `k ≥ 0` the first `k` elements; for `k < 0` all
but the last `|k|` elements (empty when `|k| ≥ len`). -/
def pyTake {α : Type} (k : Int) (xs : List α) : List α :=
  if 0 ≤ k then xs.take k.toNat else xs.take (xs.length - (-k).toNat)

/-- Round half to even (Python `round`), at integer precision. -/
def roundHalfEven (q : ℚ) : Int :=
  if q - (⌊q⌋ : ℚ) < 1 / 2 then ⌊q⌋
  else if 1 / 2 < q - (⌊q⌋ : ℚ) then ⌊q⌋ + 1
  else if ⌊q⌋ % 2 = 0 then ⌊q⌋ else ⌊q⌋ + 1

/-- Python `round(q, 1)`: round half to even at one decimal place. -/
def pyRound1 (q : ℚ) : ℚ := (roundHalfEven (q * 10) : ℚ) / 10

/-- Whether a JSON value is an object (a Python dict after parsing). -/
def isObj : JValue → Bool
  | .jobj _ => true
  | _ => false

/-- Field access on a JSON object result (for stating claims). -/
def getField (v : JValue) (key : String) : Option JValue :=
  match v with
  | .jobj f => alistGet f key
  | _ => none

/-- The `products` array of a search result, as a list (for stating
claims). -/
def productsOf (v : JValue) : List JValue :=
  match getField v "products" with
  | some (.jarr l) => l
  | _ => []

/-- The Argument Normalizer: `content.get("arguments", content)`.
`dict.get` raises `AttributeError` when `content` is not a dict; when the
key `"arguments"` is absent it falls back to the top-level object, and
when the key is present its value is used as-is (whatever its type). -/
def normalizeArgs (content : JValue) : Except PyErr JValue :=
  match content with
  | .jobj fields => .ok ((alistGet fields "arguments").getD content)
  | _ => .error .attributeError

/-- One weather-table record. -/
structure WeatherRec where
  temperature_c : Int
  condition : String
  humidity_pct : Int
  wind_kmh : Int
  deriving DecidableEq

/-- The mock weather dataset (8 cities). -/
def _MOCK_WEATHER : List (String × WeatherRec) :=
  [("london",   ⟨12, "Cloudy", 78, 18⟩),
   ("tokyo",    ⟨22, "Sunny", 55, 10⟩),
   ("new york", ⟨8, "Rainy", 82, 25⟩),
   ("sydney",   ⟨28, "Sunny", 45, 14⟩),
   ("berlin",   ⟨5, "Snowy", 90, 20⟩),
   ("seattle",  ⟨10, "Drizzle", 85, 12⟩),
   ("paris",    ⟨14, "Partly Cloudy", 65, 15⟩),
   ("dubai",    ⟨38, "Sunny", 30, 8⟩)]

/-- The weather result for an already-normalized (stripped, lowered) city
string: the two branches of `get_weather` after the table lookup. -/
def weatherForCity (city : String) : JValue :=
  match alistGet _MOCK_WEATHER city with
  | some w =>
    .jobj [("city", .jstr (pyTitle city)),
           ("temperature_c", .jint w.temperature_c),
           ("temperature_f", .jfloat (pyRound1 ((w.temperature_c : ℚ) * 9 / 5 + 32))),
           ("condition", .jstr w.condition),
           ("humidity_pct", .jint w.humidity_pct),
           ("wind_kmh", .jint w.wind_kmh),
           ("source", .jstr "mock data")]
  | none =>
    .jobj [("city", .jstr (pyOrStr (pyTitle city) "Unknown")),
           ("temperature_c", .jint 20),
           ("temperature_f", .jfloat 68),
           ("condition", .jstr "Clear"),
           ("humidity_pct", .jint 60),
           ("wind_kmh", .jint 10),
           ("source", .jstr "mock data (city not in database — returning default)")]

/-- Handler `get_weather` on the parsed request body: normalize arguments,
read `city` (default `""`), strip and lower it, then look up. -/
def get_weather (content : JValue) : Except PyErr JValue :=
  match normalizeArgs content with
  | .error e => .error e
  | .ok args =>
    match args with
    | .jobj f =>
      match (alistGet f "city").getD (.jstr "") with
      | .jstr cv => .ok (weatherForCity (pyLower (pyStrip cv)))
      | _ => .error .attributeError
    | _ => .error .attributeError

/-- One product-catalog record. -/
structure Product where
  id : String
  name : String
  category : String
  price_usd : ℚ
  rating : ℚ
  in_stock : Bool
  deriving DecidableEq

/-- The mock product catalog (ordered list of 10 entries). -/
def _MOCK_PRODUCTS : List Product :=
  [⟨"P001", "Wireless Noise-Cancelling Headphones", "Electronics", 149.99, 4.7, true⟩,
   ⟨"P002", "Ergonomic Mechanical Keyboard", "Electronics", 89.99, 4.5, true⟩,
   ⟨"P003", "USB-C 4-Port Hub", "Electronics", 24.99, 4.3, true⟩,
   ⟨"P004", "Standing Desk Converter", "Furniture", 199.00, 4.6, false⟩,
   ⟨"P005", "Laptop Stand with Cooling Fan", "Electronics", 39.99, 4.2, true⟩,
   ⟨"P006", "27-inch 4K Monitor", "Electronics", 449.00, 4.8, true⟩,
   ⟨"P007", "Mesh Office Chair", "Furniture", 299.00, 4.4, true⟩,
   ⟨"P008", "Portable Phone Charger 20000mAh", "Electronics", 34.99, 4.1, false⟩,
   ⟨"P009", "Smart LED Desk Lamp", "Lighting", 49.99, 4.6, true⟩,
   ⟨"P010", "2m Braided USB-C Cable (3-pack)", "Electronics", 14.99, 4.0, true⟩]

/-- A product record as the JSON object the handler returns. -/
def productToJ (p : Product) : JValue :=
  .jobj [("id", .jstr p.id),
         ("name", .jstr p.name),
         ("category", .jstr p.category),
         ("price_usd", .jfloat p.price_usd),
         ("rating", .jfloat p.rating),
         ("in_stock", .jbool p.in_stock)]

/-- The matching rule of `search_products`: the (already normalized) query
is a substring of the lowered name or of the lowered category. -/
def pMatch (query : String) (p : Product) : Bool :=
  pyIn query (pyLower p.name) || pyIn query (pyLower p.category)

/-- The effective result limit of `search_products`:
`min(int(args.get("max_results", 3)), 5)` with the `except` branch giving
`3` whenever `int(...)` raises. -/
def effLimit (args : List (String × JValue)) : Int :=
  match pyToInt ((alistGet args "max_results").getD (.jint 3)) with
  | some n => min n 5
  | none => 3

/-- The match list after the positional fallback: the filtered catalog, or
`_MOCK_PRODUCTS[:max_results]` when the filter is empty. -/
def effMatches (query : String) (limit : Int) : List Product :=
  let m := _MOCK_PRODUCTS.filter (pMatch query)
  if m.isEmpty then pyTake limit _MOCK_PRODUCTS else m

/-- The search result object for an already-normalized query and an
already-computed effective limit. -/
def searchCore (query : String) (limit : Int) : JValue :=
  .jobj [("query", .jstr query),
         ("total_matches", .jint ((effMatches query limit).length : Int)),
         ("returned", .jint (min ((effMatches query limit).length : Int) limit)),
         ("products", .jarr ((pyTake limit (effMatches query limit)).map productToJ)),
         ("source", .jstr "mock data")]

/-- Handler `search_products` on the parsed request body. -/
def search_products (content : JValue) : Except PyErr JValue :=
  match normalizeArgs content with
  | .error e => .error e
  | .ok args =>
    match args with
    | .jobj f =>
      match (alistGet f "query").getD (.jstr "") with
      | .jstr qv => .ok (searchCore (pyLower (pyStrip qv)) (effLimit f))
      | _ => .error .attributeError
    | _ => .error .attributeError

/-- The mock order dataset (5 orders); each record is kept as the ordered
field list of the Python dict. -/
def _MOCK_ORDERS : List (String × List (String × JValue)) :=
  [("ORD-1001",
    [("status", .jstr "Delivered"), ("placed", .jstr "2026-02-10"),
     ("estimated_delivery", .jstr "2026-02-14"), ("delivered", .jstr "2026-02-13"),
     ("carrier", .jstr "FedEx"), ("tracking", .jstr "FX123456789")]),
   ("ORD-1002",
    [("status", .jstr "In Transit"), ("placed", .jstr "2026-02-15"),
     ("estimated_delivery", .jstr "2026-02-20"), ("delivered", .jnull),
     ("carrier", .jstr "UPS"), ("tracking", .jstr "1Z9999W99999999999")]),
   ("ORD-1003",
    [("status", .jstr "Processing"), ("placed", .jstr "2026-02-18"),
     ("estimated_delivery", .jstr "2026-02-24"), ("delivered", .jnull),
     ("carrier", .jnull), ("tracking", .jnull)]),
   ("ORD-1004",
    [("status", .jstr "Shipped"), ("placed", .jstr "2026-02-17"),
     ("estimated_delivery", .jstr "2026-02-22"), ("delivered", .jnull),
     ("carrier", .jstr "USPS"), ("tracking", .jstr "9400111899223445401090")]),
   ("ORD-1005",
    [("status", .jstr "Cancelled"), ("placed", .jstr "2026-02-12"),
     ("estimated_delivery", .jnull), ("delivered", .jnull),
     ("carrier", .jnull), ("tracking", .jnull)])]

/-- The order result for an already-normalized (stripped, uppered) id:
found orders merge `order_id`, the record fields and `source` in dict
insertion order; unknown ids get the Not Found object. -/
def orderResult (oid : String) : JValue :=
  match alistGet _MOCK_ORDERS oid with
  | some rec =>
    .jobj (("order_id", .jstr oid) :: rec ++ [("source", .jstr "mock data")])
  | none =>
    .jobj [("order_id", .jstr oid),
           ("status", .jstr "Not Found"),
           ("message", .jstr ("No order found with ID \x27" ++ oid ++
             "\x27. Valid examples: ORD-1001 through ORD-1005.")),
           ("source", .jstr "mock data")]

/-- Handler `get_order_status` on the parsed request body. -/
def get_order_status (content : JValue) : Except PyErr JValue :=
  match normalizeArgs content with
  | .error e => .error e
  | .ok args =>
    match args with
    | .jobj f =>
      match (alistGet f "order_id").getD (.jstr "") with
      | .jstr ov => .ok (orderResult (pyUpper (pyStrip ov)))
      | _ => .error .attributeError
    | _ => .error .attributeError

/-- Handler `hello_mcp`: ignores its trigger context and returns the fixed
greeting (a plain string, not JSON-wrapped). -/
def hello_mcp (_context : String) : String :=
  "Hello from the sample MCP server running on Azure Functions!"

/-- Spec-side reading of the `max_results` parse: the parsed integer, or
the default `3` when the field is missing or does not parse. -/
def parsedOrDefault (args : List (String × JValue)) : Int :=
  match alistGet args "max_results" with
  | none => 3
  | some v => (pyToInt v).getD 3

/-! Helper lemmas. -/

/-- Python-title of a string is empty exactly when the string is empty
(`title()` rewrites characters one for one). -/
theorem pyTitle_empty_iff (x : String) : pyTitle x = "" ↔ x = "" := by
  obtain ⟨d⟩ := x
  cases d with
  | nil => exact ⟨fun _ => rfl, fun _ => rfl⟩
  | cons c t =>
    constructor
    · intro h
      have hd : pyTitleGo false (c :: t) = [] := congrArg String.data h
      simp [pyTitleGo] at hd
    · intro h
      exact absurd (congrArg String.data h) (by simp)

/-- The falsy-`or` of the unknown-city branch, rephrased on the normalized
input: `city.title() or "Unknown"` is `"Unknown"` exactly on empty input. -/
theorem pyOrStr_title (x : String) :
    pyOrStr (pyTitle x) "Unknown" = if x = "" then "Unknown" else pyTitle x := by
  unfold pyOrStr
  rcases eq_or_ne x "" with he | he
  · rw [he]
    rfl
  · rw [if_neg he, if_neg (fun hz => he ((pyTitle_empty_iff x).mp hz))]

/-- Slicing with a non-negative bound is `List.take`. -/
theorem pyTake_nonneg {α : Type} (k : Int) (xs : List α) (h : 0 ≤ k) :
    pyTake k xs = xs.take k.toNat := by
  simp [pyTake, h]

/-! Claims. -/

/-- C1 (amended): the normalizer uses the value nested under
`"arguments"` whenever the key is present, whatever its type: an absent
key falls back to the top-level object, a nested object is used as the
mapping, and a nested non-object value is used as-is, after which the
handler fails with an `AttributeError` instead of succeeding on the
top-level object. -/
theorem c1_arguments_extraction (fields : List (String × JValue)) :
    (alistGet fields "arguments" = none →
      normalizeArgs (.jobj fields) = .ok (.jobj fields)) ∧
    (∀ m, alistGet fields "arguments" = some (.jobj m) →
      normalizeArgs (.jobj fields) = .ok (.jobj m)) ∧
    (∀ v, alistGet fields "arguments" = some v → isObj v = false →
      normalizeArgs (.jobj fields) = .ok v ∧
        get_weather (.jobj fields) = .error .attributeError) := by
  refine ⟨fun h => by simp [normalizeArgs, h], fun m h => by simp [normalizeArgs, h],
    fun v h hv => ?_⟩
  have hn : normalizeArgs (.jobj fields) = .ok v := by simp [normalizeArgs, h]
  refine ⟨hn, ?_⟩
  cases v <;> simp_all [get_weather, isObj]

/-- C1 (witness): a concrete body whose `"arguments"` value is a number:
the nested value is extracted and the handler errors. -/
theorem c1_arguments_extraction_witness :
    normalizeArgs (.jobj [("arguments", .jint 7), ("city", .jstr "tokyo")]) = .ok (.jint 7) ∧
    get_weather (.jobj [("arguments", .jint 7), ("city", .jstr "tokyo")]) =
      .error .attributeError :=
  (c1_arguments_extraction [("arguments", .jint 7), ("city", .jstr "tokyo")]).2.2
    (.jint 7) rfl rfl

/-- C1 (counterexample): with `"arguments"` bound to the string `"x"` and
a valid top-level `"city"`, the normalizer extracts the string (not the
top-level object) and `get_weather` raises instead of succeeding, against
the claim that the top-level object is used and the handler succeeds. -/
theorem c1_counterexample :
    normalizeArgs (.jobj [("arguments", .jstr "x"), ("city", .jstr "london")]) =
      .ok (.jstr "x") ∧
    JValue.jstr "x" ≠ .jobj [("arguments", .jstr "x"), ("city", .jstr "london")] ∧
    get_weather (.jobj [("arguments", .jstr "x"), ("city", .jstr "london")]) =
      .error .attributeError ∧
    alistGet _MOCK_WEATHER "london" = some ⟨12, "Cloudy", 78, 18⟩ :=
  ⟨rfl, fun h => JValue.noConfusion h, rfl, rfl⟩

/-- C3: the effective result limit of `search_products` is
`min(parsed_or_default, 5)`: a missing `max_results` gives the default 3,
an unparsable one gives 3, and the result never exceeds 5. -/
theorem c3_effective_limit (args : List (String × JValue)) :
    effLimit args = min (parsedOrDefault args) 5 ∧
    (alistGet args "max_results" = none → effLimit args = 3) ∧
    (∀ v, alistGet args "max_results" = some v → pyToInt v = none →
      effLimit args = 3) ∧
    effLimit args ≤ 5 := by
  have hmain : effLimit args = min (parsedOrDefault args) 5 := by
    unfold effLimit parsedOrDefault
    cases h : alistGet args "max_results" with
    | none => norm_num [pyToInt]
    | some v =>
      cases hv : pyToInt v with
      | none => norm_num [Option.getD_some, hv]
      | some n => norm_num [Option.getD_some, hv]
  refine ⟨hmain, fun h => ?_, fun v h hv => ?_, ?_⟩
  · rw [hmain]
    norm_num [parsedOrDefault, h]
  · rw [hmain]
    norm_num [parsedOrDefault, h, hv]
  · rw [hmain]
    exact min_le_right _ _

/-- C3 (witness): a missing and a non-numeric `max_results` both give the
default 3; a large one is clamped to 5. -/
theorem c3_effective_limit_witness :
    effLimit [] = 3 ∧
    effLimit [("max_results", .jstr "abc")] = 3 ∧
    effLimit [("max_results", .jstr "10")] ≤ 5 :=
  ⟨(c3_effective_limit []).2.1 rfl,
   (c3_effective_limit [("max_results", .jstr "abc")]).2.2.1 (.jstr "abc") rfl rfl,
   (c3_effective_limit [("max_results", .jstr "10")]).2.2.2⟩

/-- C4: a catalog product is in the match set exactly when the normalized
query is a substring of its lowered name or of its lowered category, and
the empty query matches all 10 products. -/
theorem c4_matching_rule (q0 : String) (p : Product) (hp : p ∈ _MOCK_PRODUCTS) :
    (p ∈ _MOCK_PRODUCTS.filter (pMatch (pyLower (pyStrip q0))) ↔
      (pyIn (pyLower (pyStrip q0)) (pyLower p.name) = true ∨
       pyIn (pyLower (pyStrip q0)) (pyLower p.category) = true)) ∧
    _MOCK_PRODUCTS.filter (pMatch (pyLower (pyStrip ""))) = _MOCK_PRODUCTS ∧
    _MOCK_PRODUCTS.length = 10 := by
  refine ⟨?_, rfl, rfl⟩
  rw [List.mem_filter]
  simp [hp, pMatch]

/-- C4 (witness): `P003` matches the query `"usb"` through its name. -/
theorem c4_matching_rule_witness :
    (⟨"P003", "USB-C 4-Port Hub", "Electronics", 24.99, 4.3, true⟩ : Product) ∈
      _MOCK_PRODUCTS.filter (pMatch (pyLower (pyStrip "usb"))) :=
  (c4_matching_rule "usb" ⟨"P003", "USB-C 4-Port Hub", "Electronics", 24.99, 4.3, true⟩
    (by simp [_MOCK_PRODUCTS])).1.mpr (Or.inl rfl)

/-- C8 (amended): for a flat argument object without an `"arguments"` key
of its own, the nested shape and the flat shape are normalized to the same
mapping and every handler returns the same result on both. -/
theorem c8_shape_invariance (m : List (String × JValue))
    (h : alistGet m "arguments" = none) :
    normalizeArgs (.jobj [("arguments", .jobj m)]) = normalizeArgs (.jobj m) ∧
    get_weather (.jobj [("arguments", .jobj m)]) = get_weather (.jobj m) ∧
    search_products (.jobj [("arguments", .jobj m)]) = search_products (.jobj m) ∧
    get_order_status (.jobj [("arguments", .jobj m)]) = get_order_status (.jobj m) := by
  have h1 : normalizeArgs (.jobj [("arguments", .jobj m)]) = .ok (.jobj m) := rfl
  have h2 : normalizeArgs (.jobj m) = .ok (.jobj m) := by simp [normalizeArgs, h]
  refine ⟨h1.trans h2.symm, ?_, ?_, ?_⟩ <;>
    simp [get_weather, search_products, get_order_status, h1, h2]

/-- C8 (witness): the same `city` argument nested and flat gives the same
`get_weather` result. -/
theorem c8_shape_invariance_witness :
    get_weather (.jobj [("arguments", .jobj [("city", .jstr "tokyo")])]) =
      get_weather (.jobj [("city", .jstr "tokyo")]) :=
  (c8_shape_invariance [("city", .jstr "tokyo")] rfl).2.1

/-- C8 (counterexample): a flat object that itself contains an
`"arguments"` key carries `city = "london"` as a flat mapping, but the
two shapes are normalized differently and `get_weather` returns different
results (London weather nested, Tokyo weather flat). -/
theorem c8_counterexample :
    get_weather (.jobj [("arguments",
        .jobj [("city", .jstr "london"), ("arguments", .jobj [("city", .jstr "tokyo")])])]) =
      .ok (weatherForCity "london") ∧
    get_weather (.jobj [("city", .jstr "london"),
        ("arguments", .jobj [("city", .jstr "tokyo")])]) =
      .ok (weatherForCity "tokyo") ∧
    get_weather (.jobj [("arguments",
        .jobj [("city", .jstr "london"), ("arguments", .jobj [("city", .jstr "tokyo")])])]) ≠
      get_weather (.jobj [("city", .jstr "london"),
        ("arguments", .jobj [("city", .jstr "tokyo")])]) := by
  refine ⟨rfl, rfl, fun h => ?_⟩
  rw [show get_weather (.jobj [("arguments",
        .jobj [("city", .jstr "london"), ("arguments", .jobj [("city", .jstr "tokyo")])])]) =
      .ok (weatherForCity "london") from rfl,
    show get_weather (.jobj [("city", .jstr "london"),
        ("arguments", .jobj [("city", .jstr "tokyo")])]) =
      .ok (weatherForCity "tokyo") from rfl] at h
  injection h with h
  have h12 : getField (weatherForCity "london") "temperature_c" =
      getField (weatherForCity "tokyo") "temperature_c" := by rw [h]
  rw [show getField (weatherForCity "london") "temperature_c" = some (.jint 12) from rfl,
    show getField (weatherForCity "tokyo") "temperature_c" = some (.jint 22) from rfl] at h12
  injection h12 with h12
  injection h12 with h12
  exact absurd h12 (by decide)

/-- C9: every handler is a pure function of its input: repeated calls on
identical input give identical output, and `hello_mcp` always returns the
fixed greeting. -/
theorem c9_deterministic (ctx : String) (content : JValue) :
    hello_mcp ctx = "Hello from the sample MCP server running on Azure Functions!" ∧
    hello_mcp ctx = hello_mcp ctx ∧
    get_weather content = get_weather content ∧
    search_products content = search_products content ∧
    get_order_status content = get_order_status content :=
  ⟨rfl, rfl, rfl, rfl, rfl⟩

/-- C5: a city that normalizes to a key of the weather table gets the
stored record back: title-cased city, stored Celsius fields,
`temperature_f = round(c * 9 / 5 + 32, 1)` and source `"mock data"`. -/
theorem c5_known_city (s : String) (w : WeatherRec)
    (h : alistGet _MOCK_WEATHER (pyLower (pyStrip s)) = some w) :
    get_weather (.jobj [("city", .jstr s)]) = .ok (.jobj
      [("city", .jstr (pyTitle (pyLower (pyStrip s)))),
       ("temperature_c", .jint w.temperature_c),
       ("temperature_f", .jfloat (pyRound1 ((w.temperature_c : ℚ) * 9 / 5 + 32))),
       ("condition", .jstr w.condition),
       ("humidity_pct", .jint w.humidity_pct),
       ("wind_kmh", .jint w.wind_kmh),
       ("source", .jstr "mock data")]) := by
  have e : get_weather (.jobj [("city", .jstr s)]) =
      .ok (weatherForCity (pyLower (pyStrip s))) := rfl
  rw [e]
  unfold weatherForCity
  rw [h]

/-- C5 (witness): `get_weather("london")` gives 12 °C, Cloudy, 78 %,
18 km/h, and the Fahrenheit value rounds to 53.6. -/
theorem c5_known_city_witness :
    get_weather (.jobj [("city", .jstr "london")]) = .ok (.jobj
      [("city", .jstr "London"),
       ("temperature_c", .jint 12),
       ("temperature_f", .jfloat (pyRound1 (((12 : Int) : ℚ) * 9 / 5 + 32))),
       ("condition", .jstr "Cloudy"),
       ("humidity_pct", .jint 78),
       ("wind_kmh", .jint 18),
       ("source", .jstr "mock data")]) ∧
    pyRound1 (((12 : Int) : ℚ) * 9 / 5 + 32) = (53.6 : ℚ) := by
  constructor
  · exact c5_known_city "london" ⟨12, "Cloudy", 78, 18⟩ rfl
  · have h1 : ((((12 : Int) : ℚ) * 9 / 5 + 32) * 10) = (((536 : Int) : ℚ)) := by
      push_cast
      norm_num
    unfold pyRound1 roundHalfEven
    rw [h1, Int.floor_intCast]
    norm_num

/-- C6: a city not in the weather table raises no error and gets the
fixed default object, with the city title-cased or `"Unknown"` when the
normalized input is empty. -/
theorem c6_unknown_city (s : String)
    (h : alistGet _MOCK_WEATHER (pyLower (pyStrip s)) = none) :
    get_weather (.jobj [("city", .jstr s)]) = .ok (.jobj
      [("city", .jstr (if pyLower (pyStrip s) = "" then "Unknown"
        else pyTitle (pyLower (pyStrip s)))),
       ("temperature_c", .jint 20),
       ("temperature_f", .jfloat 68),
       ("condition", .jstr "Clear"),
       ("humidity_pct", .jint 60),
       ("wind_kmh", .jint 10),
       ("source", .jstr "mock data (city not in database — returning default)")]) := by
  have e : get_weather (.jobj [("city", .jstr s)]) =
      .ok (weatherForCity (pyLower (pyStrip s))) := rfl
  rw [e]
  unfold weatherForCity
  rw [h, pyOrStr_title]

/-- C6 (witness): `get_weather("atlantis")` returns the default object
with city `"Atlantis"`, 20 °C and 68.0 °F. -/
theorem c6_unknown_city_witness :
    get_weather (.jobj [("city", .jstr "atlantis")]) = .ok (.jobj
      [("city", .jstr "Atlantis"),
       ("temperature_c", .jint 20),
       ("temperature_f", .jfloat 68),
       ("condition", .jstr "Clear"),
       ("humidity_pct", .jint 60),
       ("wind_kmh", .jint 10),
       ("source", .jstr "mock data (city not in database — returning default)")]) :=
  c6_unknown_city "atlantis" rfl

/-- C7: `get_order_status` trims and upper-cases the id and does an exact
lookup: a hit returns the record merged with `order_id` and source, a miss
returns the Not Found object with the message naming the id and the valid
range; `get_order_status("ord-1003")` gives ORD-1003, Processing,
delivered null. -/
theorem c7_order_lookup (s : String) :
    (∀ rec, alistGet _MOCK_ORDERS (pyUpper (pyStrip s)) = some rec →
      get_order_status (.jobj [("order_id", .jstr s)]) = .ok (.jobj
        (("order_id", .jstr (pyUpper (pyStrip s))) :: rec ++
          [("source", .jstr "mock data")]))) ∧
    (alistGet _MOCK_ORDERS (pyUpper (pyStrip s)) = none →
      get_order_status (.jobj [("order_id", .jstr s)]) = .ok (.jobj
        [("order_id", .jstr (pyUpper (pyStrip s))),
         ("status", .jstr "Not Found"),
         ("message", .jstr ("No order found with ID \x27" ++ pyUpper (pyStrip s) ++
           "\x27. Valid examples: ORD-1001 through ORD-1005.")),
         ("source", .jstr "mock data")])) ∧
    get_order_status (.jobj [("order_id", .jstr "ord-1003")]) = .ok (.jobj
      [("order_id", .jstr "ORD-1003"),
       ("status", .jstr "Processing"),
       ("placed", .jstr "2026-02-18"),
       ("estimated_delivery", .jstr "2026-02-24"),
       ("delivered", .jnull),
       ("carrier", .jnull),
       ("tracking", .jnull),
       ("source", .jstr "mock data")]) := by
  have e : get_order_status (.jobj [("order_id", .jstr s)]) =
      .ok (orderResult (pyUpper (pyStrip s))) := rfl
  refine ⟨fun rec hr => ?_, fun hn => ?_, rfl⟩
  · rw [e]
    unfold orderResult
    rw [hr]
  · rw [e]
    unfold orderResult
    rw [hn]

/-- C7 (witness): the unknown id ORD-9999 gets the Not Found object with
the range-naming message. -/
theorem c7_order_lookup_witness :
    get_order_status (.jobj [("order_id", .jstr "ORD-9999")]) = .ok (.jobj
      [("order_id", .jstr "ORD-9999"),
       ("status", .jstr "Not Found"),
       ("message", .jstr
         "No order found with ID \x27ORD-9999\x27. Valid examples: ORD-1001 through ORD-1005."),
       ("source", .jstr "mock data")]) :=
  (c7_order_lookup "ORD-9999").2.1 rfl

/-- C2 (amended): when the normalized query matches no product and the
effective limit is non-negative, the result is the positional fallback:
the first `effective_limit` catalog products in order, `total_matches`
the length of that fallback slice, `returned = min(total_matches,
effective_limit)`; in particular `search_products(query="zzzznomatch")`
returns the first 3 catalog entries with `returned = 3`. -/
theorem c2_fallback :
    (∀ (q0 : String) (limit : Int),
      _MOCK_PRODUCTS.filter (pMatch (pyLower (pyStrip q0))) = [] → 0 ≤ limit →
      searchCore (pyLower (pyStrip q0)) limit = .jobj
        [("query", .jstr (pyLower (pyStrip q0))),
         ("total_matches", .jint ((_MOCK_PRODUCTS.take limit.toNat).length : Int)),
         ("returned", .jint (min ((_MOCK_PRODUCTS.take limit.toNat).length : Int) limit)),
         ("products", .jarr ((_MOCK_PRODUCTS.take limit.toNat).map productToJ)),
         ("source", .jstr "mock data")]) ∧
    search_products (.jobj [("query", .jstr "zzzznomatch")]) = .ok (.jobj
      [("query", .jstr "zzzznomatch"),
       ("total_matches", .jint 3),
       ("returned", .jint 3),
       ("products", .jarr ((_MOCK_PRODUCTS.take 3).map productToJ)),
       ("source", .jstr "mock data")]) := by
  refine ⟨fun q0 limit hf hl => ?_, rfl⟩
  simp [searchCore, effMatches, hf, pyTake_nonneg _ _ hl, List.take_take]

/-- C2 (witness): the fallback equality evaluated at the no-match query
`"zzzznomatch"` with the default limit 3. -/
theorem c2_fallback_witness :
    searchCore (pyLower (pyStrip "zzzznomatch")) 3 = .jobj
      [("query", .jstr (pyLower (pyStrip "zzzznomatch"))),
       ("total_matches", .jint ((_MOCK_PRODUCTS.take (Int.toNat 3)).length : Int)),
       ("returned", .jint (min ((_MOCK_PRODUCTS.take (Int.toNat 3)).length : Int) 3)),
       ("products", .jarr ((_MOCK_PRODUCTS.take (Int.toNat 3)).map productToJ)),
       ("source", .jstr "mock data")] :=
  c2_fallback.1 "zzzznomatch" 3 rfl (by decide)

/-- C2 (counterexample): with `max_results = "-2"` the effective limit is
-2 and the no-match call returns the first 6 products (the catalog sliced
twice by -2), with `total_matches = 8`: the products list is neither the
first `effective_limit` products (an empty list under the natural
reading) nor the single fallback slice `_MOCK_PRODUCTS[:-2]` (8 items),
so the claim fails as stated for negative effective limits. -/
theorem c2_counterexample :
    effLimit [("query", .jstr "zzzznomatch"), ("max_results", .jstr "-2")] = -2 ∧
    search_products
        (.jobj [("query", .jstr "zzzznomatch"), ("max_results", .jstr "-2")]) =
      .ok (.jobj
        [("query", .jstr "zzzznomatch"),
         ("total_matches", .jint 8),
         ("returned", .jint (-2)),
         ("products", .jarr ((_MOCK_PRODUCTS.take 6).map productToJ)),
         ("source", .jstr "mock data")]) ∧
    ((_MOCK_PRODUCTS.take 6).map productToJ).length = 6 ∧
    ((_MOCK_PRODUCTS.take (Int.toNat (-2))).map productToJ).length = 0 ∧
    ((pyTake (-2) _MOCK_PRODUCTS).map productToJ).length = 8 ∧
    (_MOCK_PRODUCTS.take 6).map productToJ ≠
      (_MOCK_PRODUCTS.take (Int.toNat (-2))).map productToJ ∧
    (_MOCK_PRODUCTS.take 6).map productToJ ≠
      (pyTake (-2) _MOCK_PRODUCTS).map productToJ := by
  have hA : ((_MOCK_PRODUCTS.take 6).map productToJ).length = 6 := rfl
  have hB : ((_MOCK_PRODUCTS.take (Int.toNat (-2))).map productToJ).length = 0 := rfl
  have hC : ((pyTake (-2) _MOCK_PRODUCTS).map productToJ).length = 8 := rfl
  refine ⟨rfl, rfl, hA, hB, hC, fun h => ?_, fun h => ?_⟩
  · have t := congrArg List.length h
    rw [hA, hB] at t
    exact absurd t (by decide)
  · have t := congrArg List.length h
    rw [hA, hC] at t
    exact absurd t (by decide)

/-- Helper: the `returned` field of a search result. -/
theorem returned_searchCore (q : String) (limit : Int) :
    getField (searchCore q limit) "returned" =
      some (.jint (min ((effMatches q limit).length : Int) limit)) := rfl

/-- Helper: the `products` field of a search result. -/
theorem productsOf_searchCore (q : String) (limit : Int) :
    productsOf (searchCore q limit) =
      (pyTake limit (effMatches q limit)).map productToJ := rfl

/-- C10: with a non-negative effective limit, `returned` equals the
length of the `products` list, and `products` is a sublist of the catalog
(in catalog order). -/
theorem c10_returned_and_order (q : String) (limit : Int) (h : 0 ≤ limit) :
    getField (searchCore q limit) "returned" =
      some (.jint ((productsOf (searchCore q limit)).length : Int)) ∧
    List.Sublist (productsOf (searchCore q limit)) (_MOCK_PRODUCTS.map productToJ) := by
  have hpt : pyTake limit (effMatches q limit) = (effMatches q limit).take limit.toNat :=
    pyTake_nonneg _ _ h
  constructor
  · rw [returned_searchCore, productsOf_searchCore, hpt]
    refine congrArg some (congrArg JValue.jint ?_)
    simp only [List.length_map, List.length_take]
    omega
  · rw [productsOf_searchCore, hpt]
    refine List.Sublist.map productToJ ?_
    refine (List.take_sublist _ _).trans ?_
    simp only [effMatches]
    split
    · rw [pyTake_nonneg _ _ h]
      exact List.take_sublist _ _
    · exact List.filter_sublist _

/-- C10 (witness): the invariant evaluated at query `"usb"` with limit 5. -/
theorem c10_returned_and_order_witness :
    getField (searchCore "usb" 5) "returned" =
      some (.jint ((productsOf (searchCore "usb" 5)).length : Int)) ∧
    List.Sublist (productsOf (searchCore "usb" 5)) (_MOCK_PRODUCTS.map productToJ) :=
  c10_returned_and_order "usb" 5 (by decide)

